import Mathlib

/-!
Verification development for the `bark_rs` library (a Rust client for the
Bark push-notification HTTP API).

Shallow embedding of the code in `src/message.rs`, `src/sync_client.rs` and
`src/lib.rs`:

* `BarkMessage`, `BarkMessageBuilder` and its setters embed `src/message.rs`.
  Rust `u8`/`u32` fields (`volume`, `badge`) are embedded as `Nat`; the only
  arithmetic the code performs on them is the comparison `volume <= 10`,
  which agrees with the comparison on the embedded naturals.
* `SyncBarkClient`, `build_json_payload`, `send_single`, `send_batch` and
  `send` embed `src/sync_client.rs`.  The `reqwest::blocking::Client` handle
  stored in the Rust struct carries no semantics relevant to the claims and
  is dropped from the embedded record.
* The JSON payload (`HashMap<String, serde_json::Value>` in the code) is
  embedded as a lookup function `String → Option JsonValue`; `insert`
  overwrites the binding of the inserted key and leaves all other keys
  unchanged, exactly like `HashMap::insert`.
* The HTTP POST performed by `send` is embedded as the `Request` value
  (URL plus payload) that the code hands to `reqwest`; `fullSend` closes
  the loop with an oracle `http : Request → HttpOutcome` standing for the
  network and the decoding of the response body.  The oracle is consulted
  exactly when the code reaches `self.client.post(&url)`, so `fullSend`
  returning an error without the oracle being able to influence the result
  models "fails before any HTTP call is attempted".
* `serde_json::to_value` applied to a `Vec<String>` cannot fail, so the
  `Result` returned by `build_json_payload` is always `Ok` and the embedded
  payload builder is total.
-/

/-- JSON values as used by the payload builder.  `bool` is included so that
"never serialized as a JSON boolean" is a non-vacuous statement; the payload
builder in the code never constructs `serde_json::Value::Bool`. -/
inductive JsonValue where
  | str : String → JsonValue
  | num : Nat → JsonValue
  | arrStr : List String → JsonValue
  | bool : Bool → JsonValue
deriving DecidableEq, Repr

/-- `Level` from `src/message.rs`. -/
inductive Level where
  | critical
  | active
  | timeSensitive
  | passive
deriving DecidableEq, Repr

/-- `Level::as_str` from `src/message.rs`. -/
def Level.as_str : Level → String
  | .critical => "critical"
  | .active => "active"
  | .timeSensitive => "timeSensitive"
  | .passive => "passive"

/-- `BarkResponse` from `src/message.rs`. -/
structure BarkResponse where
  code : Int
  message : String
  timestamp : Option Int
deriving DecidableEq, Repr

/-- `BarkMessage` from `src/message.rs`. -/
structure BarkMessage where
  title : Option String
  subtitle : Option String
  body : String
  device_key : Option String
  device_keys : Option (List String)
  level : Option Level
  volume : Option Nat
  badge : Option Nat
  call : Option Bool
  auto_copy : Option Bool
  copy : Option String
  sound : Option String
  icon : Option String
  group : Option String
  ciphertext : Option String
  is_archive : Option Bool
  url : Option String
  action : Option String
  id : Option String
  delete : Option Bool
deriving DecidableEq, Repr

/-- `impl Default for BarkMessage` from `src/message.rs`. -/
def BarkMessage.default : BarkMessage where
  title := none
  subtitle := none
  body := ""
  device_key := none
  device_keys := none
  level := none
  volume := none
  badge := none
  call := none
  auto_copy := none
  copy := none
  sound := none
  icon := none
  group := none
  ciphertext := none
  is_archive := none
  url := none
  action := none
  id := none
  delete := none

/-- `BarkMessageBuilder` from `src/message.rs`. -/
structure BarkMessageBuilder where
  message : BarkMessage
deriving DecidableEq, Repr

/-- `BarkMessageBuilder::new`. -/
def BarkMessageBuilder.new : BarkMessageBuilder :=
  { message := BarkMessage.default }

/-- `BarkMessageBuilder::body`. -/
def BarkMessageBuilder.body (b : BarkMessageBuilder) (s : String) : BarkMessageBuilder :=
  { b with message := { b.message with body := s } }

/-- `BarkMessageBuilder::title`. -/
def BarkMessageBuilder.title (b : BarkMessageBuilder) (s : String) : BarkMessageBuilder :=
  { b with message := { b.message with title := some s } }

/-- `BarkMessageBuilder::subtitle`. -/
def BarkMessageBuilder.subtitle (b : BarkMessageBuilder) (s : String) : BarkMessageBuilder :=
  { b with message := { b.message with subtitle := some s } }

/-- `BarkMessageBuilder::device_key`. -/
def BarkMessageBuilder.device_key (b : BarkMessageBuilder) (s : String) : BarkMessageBuilder :=
  { b with message := { b.message with device_key := some s } }

/-- `BarkMessageBuilder::device_keys`. -/
def BarkMessageBuilder.device_keys (b : BarkMessageBuilder) (ks : List String) : BarkMessageBuilder :=
  { b with message := { b.message with device_keys := some ks } }

/-- `BarkMessageBuilder::level`. -/
def BarkMessageBuilder.level (b : BarkMessageBuilder) (l : Level) : BarkMessageBuilder :=
  { b with message := { b.message with level := some l } }

/-- `BarkMessageBuilder::volume`: the field is set only when `volume <= 10`;
otherwise the call leaves the builder unchanged. -/
def BarkMessageBuilder.volume (b : BarkMessageBuilder) (v : Nat) : BarkMessageBuilder :=
  if v ≤ 10 then { b with message := { b.message with volume := some v } } else b

/-- `BarkMessageBuilder::badge`. -/
def BarkMessageBuilder.badge (b : BarkMessageBuilder) (n : Nat) : BarkMessageBuilder :=
  { b with message := { b.message with badge := some n } }

/-- `BarkMessageBuilder::call`. -/
def BarkMessageBuilder.call (b : BarkMessageBuilder) (x : Bool) : BarkMessageBuilder :=
  { b with message := { b.message with call := some x } }

/-- `BarkMessageBuilder::auto_copy`. -/
def BarkMessageBuilder.auto_copy (b : BarkMessageBuilder) (x : Bool) : BarkMessageBuilder :=
  { b with message := { b.message with auto_copy := some x } }

/-- `BarkMessageBuilder::copy`. -/
def BarkMessageBuilder.copy (b : BarkMessageBuilder) (s : String) : BarkMessageBuilder :=
  { b with message := { b.message with copy := some s } }

/-- `BarkMessageBuilder::sound`. -/
def BarkMessageBuilder.sound (b : BarkMessageBuilder) (s : String) : BarkMessageBuilder :=
  { b with message := { b.message with sound := some s } }

/-- `BarkMessageBuilder::icon`. -/
def BarkMessageBuilder.icon (b : BarkMessageBuilder) (s : String) : BarkMessageBuilder :=
  { b with message := { b.message with icon := some s } }

/-- `BarkMessageBuilder::group`. -/
def BarkMessageBuilder.group (b : BarkMessageBuilder) (s : String) : BarkMessageBuilder :=
  { b with message := { b.message with group := some s } }

/-- `BarkMessageBuilder::ciphertext`. -/
def BarkMessageBuilder.ciphertext (b : BarkMessageBuilder) (s : String) : BarkMessageBuilder :=
  { b with message := { b.message with ciphertext := some s } }

/-- `BarkMessageBuilder::is_archive`. -/
def BarkMessageBuilder.is_archive (b : BarkMessageBuilder) (x : Bool) : BarkMessageBuilder :=
  { b with message := { b.message with is_archive := some x } }

/-- `BarkMessageBuilder::url`. -/
def BarkMessageBuilder.url (b : BarkMessageBuilder) (s : String) : BarkMessageBuilder :=
  { b with message := { b.message with url := some s } }

/-- `BarkMessageBuilder::action`. -/
def BarkMessageBuilder.action (b : BarkMessageBuilder) (s : String) : BarkMessageBuilder :=
  { b with message := { b.message with action := some s } }

/-- `BarkMessageBuilder::id`. -/
def BarkMessageBuilder.id (b : BarkMessageBuilder) (s : String) : BarkMessageBuilder :=
  { b with message := { b.message with id := some s } }

/-- `BarkMessageBuilder::delete`. -/
def BarkMessageBuilder.delete (b : BarkMessageBuilder) (x : Bool) : BarkMessageBuilder :=
  { b with message := { b.message with delete := some x } }

/-- `BarkMessageBuilder::build`. -/
def BarkMessageBuilder.build (b : BarkMessageBuilder) : BarkMessage :=
  b.message

/-- `BarkError` from `src/lib.rs`.  The payloads of `RequestError`
(`reqwest::Error`) and `SerializationError` (`serde_json::Error`) are opaque
to the library and embedded as strings. -/
inductive BarkError where
  | requestError : String → BarkError
  | invalidUrl
  | missingDeviceKey
  | serializationError : String → BarkError
deriving DecidableEq, Repr

/-- The empty payload map (`HashMap::new`). -/
def mapEmpty : String → Option JsonValue := fun _ => none

/-- `HashMap::insert`: binds `k` to `v`, leaving every other key unchanged. -/
def mapInsert (p : String → Option JsonValue) (k : String) (v : JsonValue) :
    String → Option JsonValue :=
  fun q => if q = k then some v else p q

/-- One `if let Some(x) = field { payload.insert(k, f(x)) }` step of
`build_json_payload`: insert when the optional value is present, otherwise
leave the map unchanged. -/
def setOpt (p : String → Option JsonValue) (k : String) (o : Option JsonValue) :
    String → Option JsonValue :=
  match o with
  | some v => mapInsert p k v
  | none => p

/-- The `if call { "1" } else { "0" }` string used for every boolean field. -/
def boolTo01 (b : Bool) : String :=
  if b then "1" else "0"

/-- `SyncBarkClient` from `src/sync_client.rs` (the `reqwest` handle carries
no semantics and is dropped). -/
structure SyncBarkClient where
  base_url : String
  default_device_key : Option String
deriving DecidableEq, Repr

/-- `str::trim_end_matches('/')`: removes every trailing `'/'`. -/
def trimEndSlashes (s : String) : String :=
  String.mk ((s.data.reverse.dropWhile (fun c => c = '/')).reverse)

/-- `SyncBarkClient::new`. -/
def SyncBarkClient.new (base_url : String) : SyncBarkClient where
  base_url := trimEndSlashes base_url
  default_device_key := none

/-- `SyncBarkClient::with_device_key`. -/
def SyncBarkClient.with_device_key (base_url : String) (device_key : String) :
    SyncBarkClient where
  base_url := trimEndSlashes base_url
  default_device_key := some device_key

/-- `SyncBarkClient::get_device_key`: the message's key, else the client's
default, else `MissingDeviceKey`. -/
def SyncBarkClient.get_device_key (c : SyncBarkClient) (m : BarkMessage) :
    Except BarkError String :=
  match m.device_key with
  | some k => .ok k
  | none =>
    match c.default_device_key with
    | some k => .ok k
    | none => .error BarkError.missingDeviceKey

/-- `SyncBarkClient::build_json_payload`, line by line in source order.
`serde_json::to_value` of a `Vec<String>` always succeeds, so the function is
total.  The nested `if volume <= 10` guard appears as the filter on the
`volume` entry. -/
def SyncBarkClient.build_json_payload (m : BarkMessage) : String → Option JsonValue :=
  let p := mapInsert mapEmpty "body" (JsonValue.str m.body)
  let p := setOpt p "title" (m.title.map JsonValue.str)
  let p := setOpt p "subtitle" (m.subtitle.map JsonValue.str)
  let p := setOpt p "device_keys" (m.device_keys.map JsonValue.arrStr)
  let p := setOpt p "level" (m.level.map (fun l => JsonValue.str l.as_str))
  let p := setOpt p "volume"
    (m.volume.bind (fun v => if v ≤ 10 then some (JsonValue.num v) else none))
  let p := setOpt p "badge" (m.badge.map JsonValue.num)
  let p := setOpt p "call" (m.call.map (fun b => JsonValue.str (boolTo01 b)))
  let p := setOpt p "autoCopy" (m.auto_copy.map (fun b => JsonValue.str (boolTo01 b)))
  let p := setOpt p "copy" (m.copy.map JsonValue.str)
  let p := setOpt p "sound" (m.sound.map JsonValue.str)
  let p := setOpt p "icon" (m.icon.map JsonValue.str)
  let p := setOpt p "group" (m.group.map JsonValue.str)
  let p := setOpt p "ciphertext" (m.ciphertext.map JsonValue.str)
  let p := setOpt p "isArchive" (m.is_archive.map (fun b => JsonValue.str (boolTo01 b)))
  let p := setOpt p "url" (m.url.map JsonValue.str)
  let p := setOpt p "action" (m.action.map JsonValue.str)
  let p := setOpt p "id" (m.id.map JsonValue.str)
  let p := setOpt p "delete" (m.delete.map (fun b => JsonValue.str (boolTo01 b)))
  p

/-- The HTTP POST that `send_single` / `send_batch` hand to `reqwest`:
target URL and JSON payload. -/
structure Request where
  url : String
  payload : String → Option JsonValue

/-- `SyncBarkClient::send_single` up to the network call: resolve the device
key (failing fast with `MissingDeviceKey`), build the payload, insert the
`device_key` entry, and produce the request for `{base_url}/push`. -/
def SyncBarkClient.send_single (c : SyncBarkClient) (m : BarkMessage) :
    Except BarkError Request :=
  match c.get_device_key m with
  | .error e => .error e
  | .ok device_key =>
    .ok { url := c.base_url ++ "/push"
          payload := mapInsert (SyncBarkClient.build_json_payload m) "device_key"
            (JsonValue.str device_key) }

/-- `SyncBarkClient::send_batch` up to the network call: the payload is used
as built, with no `device_key` entry inserted. -/
def SyncBarkClient.send_batch (c : SyncBarkClient) (m : BarkMessage) :
    Except BarkError Request :=
  .ok { url := c.base_url ++ "/push"
        payload := SyncBarkClient.build_json_payload m }

/-- `SyncBarkClient::send`: batch path iff `message.device_keys.is_some()`. -/
def SyncBarkClient.send (c : SyncBarkClient) (m : BarkMessage) :
    Except BarkError Request :=
  if m.device_keys.isSome then c.send_batch m else c.send_single m

/-- Outcome of the HTTP POST plus response-body decoding, abstracted as an
oracle value: the transport can fail, the decoding of the response body can
fail (both are `reqwest::Error`s, converted to `BarkError::RequestError`), or
a `BarkResponse` is obtained. -/
inductive HttpOutcome where
  | transportError : String → HttpOutcome
  | decodeError : String → HttpOutcome
  | success : BarkResponse → HttpOutcome

/-- End-to-end `SyncBarkClient::send`: the pre-network part produces either
an error (in which case the oracle standing for the network is never
consulted) or a request, which is then answered by the oracle. -/
def fullSend (c : SyncBarkClient) (m : BarkMessage)
    (http : Request → HttpOutcome) : Except BarkError BarkResponse :=
  match c.send m with
  | .error e => .error e
  | .ok req =>
    match http req with
    | .transportError e => .error (BarkError.requestError e)
    | .decodeError e => .error (BarkError.requestError e)
    | .success r => .ok r

/-- `SyncBarkMessageBuilder` from `src/sync_client.rs`: a client reference
plus an inner `BarkMessageBuilder`. -/
structure SyncBarkMessageBuilder where
  client : SyncBarkClient
  builder : BarkMessageBuilder

/-- `SyncBarkClient::message`: a fresh builder attached to the client. -/
def SyncBarkClient.message (c : SyncBarkClient) : SyncBarkMessageBuilder where
  client := c
  builder := BarkMessageBuilder.new

/-- `SyncBarkMessageBuilder::body` (delegates to the inner builder). -/
def SyncBarkMessageBuilder.body (sb : SyncBarkMessageBuilder) (s : String) :
    SyncBarkMessageBuilder :=
  { sb with builder := sb.builder.body s }

/-- `SyncBarkMessageBuilder::title`. -/
def SyncBarkMessageBuilder.title (sb : SyncBarkMessageBuilder) (s : String) :
    SyncBarkMessageBuilder :=
  { sb with builder := sb.builder.title s }

/-- `SyncBarkMessageBuilder::subtitle`. -/
def SyncBarkMessageBuilder.subtitle (sb : SyncBarkMessageBuilder) (s : String) :
    SyncBarkMessageBuilder :=
  { sb with builder := sb.builder.subtitle s }

/-- `SyncBarkMessageBuilder::device_key`. -/
def SyncBarkMessageBuilder.device_key (sb : SyncBarkMessageBuilder) (s : String) :
    SyncBarkMessageBuilder :=
  { sb with builder := sb.builder.device_key s }

/-- `SyncBarkMessageBuilder::device_keys`. -/
def SyncBarkMessageBuilder.device_keys (sb : SyncBarkMessageBuilder) (ks : List String) :
    SyncBarkMessageBuilder :=
  { sb with builder := sb.builder.device_keys ks }

/-- `SyncBarkMessageBuilder::level`. -/
def SyncBarkMessageBuilder.level (sb : SyncBarkMessageBuilder) (l : Level) :
    SyncBarkMessageBuilder :=
  { sb with builder := sb.builder.level l }

/-- `SyncBarkMessageBuilder::volume`. -/
def SyncBarkMessageBuilder.volume (sb : SyncBarkMessageBuilder) (v : Nat) :
    SyncBarkMessageBuilder :=
  { sb with builder := sb.builder.volume v }

/-- `SyncBarkMessageBuilder::badge`. -/
def SyncBarkMessageBuilder.badge (sb : SyncBarkMessageBuilder) (n : Nat) :
    SyncBarkMessageBuilder :=
  { sb with builder := sb.builder.badge n }

/-- `SyncBarkMessageBuilder::call`. -/
def SyncBarkMessageBuilder.call (sb : SyncBarkMessageBuilder) (x : Bool) :
    SyncBarkMessageBuilder :=
  { sb with builder := sb.builder.call x }

/-- `SyncBarkMessageBuilder::auto_copy`. -/
def SyncBarkMessageBuilder.auto_copy (sb : SyncBarkMessageBuilder) (x : Bool) :
    SyncBarkMessageBuilder :=
  { sb with builder := sb.builder.auto_copy x }

/-- `SyncBarkMessageBuilder::copy`. -/
def SyncBarkMessageBuilder.copy (sb : SyncBarkMessageBuilder) (s : String) :
    SyncBarkMessageBuilder :=
  { sb with builder := sb.builder.copy s }

/-- `SyncBarkMessageBuilder::sound`. -/
def SyncBarkMessageBuilder.sound (sb : SyncBarkMessageBuilder) (s : String) :
    SyncBarkMessageBuilder :=
  { sb with builder := sb.builder.sound s }

/-- `SyncBarkMessageBuilder::icon`. -/
def SyncBarkMessageBuilder.icon (sb : SyncBarkMessageBuilder) (s : String) :
    SyncBarkMessageBuilder :=
  { sb with builder := sb.builder.icon s }

/-- `SyncBarkMessageBuilder::group`. -/
def SyncBarkMessageBuilder.group (sb : SyncBarkMessageBuilder) (s : String) :
    SyncBarkMessageBuilder :=
  { sb with builder := sb.builder.group s }

/-- `SyncBarkMessageBuilder::ciphertext`. -/
def SyncBarkMessageBuilder.ciphertext (sb : SyncBarkMessageBuilder) (s : String) :
    SyncBarkMessageBuilder :=
  { sb with builder := sb.builder.ciphertext s }

/-- `SyncBarkMessageBuilder::is_archive`. -/
def SyncBarkMessageBuilder.is_archive (sb : SyncBarkMessageBuilder) (x : Bool) :
    SyncBarkMessageBuilder :=
  { sb with builder := sb.builder.is_archive x }

/-- `SyncBarkMessageBuilder::url`. -/
def SyncBarkMessageBuilder.url (sb : SyncBarkMessageBuilder) (s : String) :
    SyncBarkMessageBuilder :=
  { sb with builder := sb.builder.url s }

/-- `SyncBarkMessageBuilder::action`. -/
def SyncBarkMessageBuilder.action (sb : SyncBarkMessageBuilder) (s : String) :
    SyncBarkMessageBuilder :=
  { sb with builder := sb.builder.action s }

/-- `SyncBarkMessageBuilder::id`. -/
def SyncBarkMessageBuilder.id (sb : SyncBarkMessageBuilder) (s : String) :
    SyncBarkMessageBuilder :=
  { sb with builder := sb.builder.id s }

/-- `SyncBarkMessageBuilder::delete`. -/
def SyncBarkMessageBuilder.delete (sb : SyncBarkMessageBuilder) (x : Bool) :
    SyncBarkMessageBuilder :=
  { sb with builder := sb.builder.delete x }

/-- `SyncBarkMessageBuilder::build`: builds without sending. -/
def SyncBarkMessageBuilder.build (sb : SyncBarkMessageBuilder) : BarkMessage :=
  sb.builder.build

/-- `SyncBarkMessageBuilder::send` up to the network call:
`self.client.send(&self.builder.build())`. -/
def SyncBarkMessageBuilder.send (sb : SyncBarkMessageBuilder) : Except BarkError Request :=
  sb.client.send sb.builder.build

/-- End-to-end `SyncBarkMessageBuilder::send`, with the HTTP oracle. -/
def SyncBarkMessageBuilder.sendVia (sb : SyncBarkMessageBuilder)
    (http : Request → HttpOutcome) : Except BarkError BarkResponse :=
  fullSend sb.client sb.builder.build http

/-- One builder-setter call, as data: used to quantify over arbitrary
sequences of setter calls. -/
inductive SetterOp where
  | body : String → SetterOp
  | title : String → SetterOp
  | subtitle : String → SetterOp
  | device_key : String → SetterOp
  | device_keys : List String → SetterOp
  | level : Level → SetterOp
  | volume : Nat → SetterOp
  | badge : Nat → SetterOp
  | call : Bool → SetterOp
  | auto_copy : Bool → SetterOp
  | copy : String → SetterOp
  | sound : String → SetterOp
  | icon : String → SetterOp
  | group : String → SetterOp
  | ciphertext : String → SetterOp
  | is_archive : Bool → SetterOp
  | url : String → SetterOp
  | action : String → SetterOp
  | id : String → SetterOp
  | delete : Bool → SetterOp

/-- Interpret one setter call on a `BarkMessageBuilder`. -/
def applyOp (b : BarkMessageBuilder) : SetterOp → BarkMessageBuilder
  | .body s => b.body s
  | .title s => b.title s
  | .subtitle s => b.subtitle s
  | .device_key s => b.device_key s
  | .device_keys ks => b.device_keys ks
  | .level l => b.level l
  | .volume v => b.volume v
  | .badge n => b.badge n
  | .call x => b.call x
  | .auto_copy x => b.auto_copy x
  | .copy s => b.copy s
  | .sound s => b.sound s
  | .icon s => b.icon s
  | .group s => b.group s
  | .ciphertext s => b.ciphertext s
  | .is_archive x => b.is_archive x
  | .url s => b.url s
  | .action s => b.action s
  | .id s => b.id s
  | .delete x => b.delete x

/-- Interpret a sequence of setter calls on a `BarkMessageBuilder`. -/
def applyOps (b : BarkMessageBuilder) (ops : List SetterOp) : BarkMessageBuilder :=
  ops.foldl applyOp b

/-- Interpret one setter call on a client-attached `SyncBarkMessageBuilder`. -/
def applyOpSync (sb : SyncBarkMessageBuilder) : SetterOp → SyncBarkMessageBuilder
  | .body s => sb.body s
  | .title s => sb.title s
  | .subtitle s => sb.subtitle s
  | .device_key s => sb.device_key s
  | .device_keys ks => sb.device_keys ks
  | .level l => sb.level l
  | .volume v => sb.volume v
  | .badge n => sb.badge n
  | .call x => sb.call x
  | .auto_copy x => sb.auto_copy x
  | .copy s => sb.copy s
  | .sound s => sb.sound s
  | .icon s => sb.icon s
  | .group s => sb.group s
  | .ciphertext s => sb.ciphertext s
  | .is_archive x => sb.is_archive x
  | .url s => sb.url s
  | .action s => sb.action s
  | .id s => sb.id s
  | .delete x => sb.delete x

/-- Interpret a sequence of setter calls on a `SyncBarkMessageBuilder`. -/
def applyOpsSync (sb : SyncBarkMessageBuilder) (ops : List SetterOp) :
    SyncBarkMessageBuilder :=
  ops.foldl applyOpSync sb

theorem setOpt_some (p : String → Option JsonValue) (k : String) (v : JsonValue) :
    setOpt p k (some v) = mapInsert p k v := rfl

theorem setOpt_none (p : String → Option JsonValue) (k : String) :
    setOpt p k none = p := rfl

theorem lookup_mapInsert_self (p : String → Option JsonValue) (k : String) (v : JsonValue) :
    mapInsert p k v k = some v := by
  simp [mapInsert]

theorem lookup_mapInsert_ne {q k : String} (h : q ≠ k) (p : String → Option JsonValue)
    (v : JsonValue) : mapInsert p k v q = p q := by
  simp [mapInsert, h]

theorem lookup_setOpt_ne {q k : String} (h : q ≠ k) (p : String → Option JsonValue)
    (o : Option JsonValue) : setOpt p k o q = p q := by
  cases o <;> simp [setOpt, mapInsert, h]

theorem payload_body (m : BarkMessage) :
    SyncBarkClient.build_json_payload m "body" = some (JsonValue.str m.body) := by
  simp [SyncBarkClient.build_json_payload, lookup_setOpt_ne, setOpt_some, setOpt_none,
    lookup_mapInsert_self, lookup_mapInsert_ne, mapEmpty]

theorem payload_device_key (m : BarkMessage) :
    SyncBarkClient.build_json_payload m "device_key" = none := by
  simp [SyncBarkClient.build_json_payload, lookup_setOpt_ne, setOpt_some, setOpt_none,
    lookup_mapInsert_self, lookup_mapInsert_ne, mapEmpty]

theorem payload_title (m : BarkMessage) :
    SyncBarkClient.build_json_payload m "title" = m.title.map JsonValue.str := by
  cases h : m.title <;>
    simp [SyncBarkClient.build_json_payload, lookup_setOpt_ne, setOpt_some, setOpt_none,
      lookup_mapInsert_self, lookup_mapInsert_ne, mapEmpty, h]

theorem payload_subtitle (m : BarkMessage) :
    SyncBarkClient.build_json_payload m "subtitle" = m.subtitle.map JsonValue.str := by
  cases h : m.subtitle <;>
    simp [SyncBarkClient.build_json_payload, lookup_setOpt_ne, setOpt_some, setOpt_none,
      lookup_mapInsert_self, lookup_mapInsert_ne, mapEmpty, h]

theorem payload_device_keys (m : BarkMessage) :
    SyncBarkClient.build_json_payload m "device_keys" = m.device_keys.map JsonValue.arrStr := by
  cases h : m.device_keys <;>
    simp [SyncBarkClient.build_json_payload, lookup_setOpt_ne, setOpt_some, setOpt_none,
      lookup_mapInsert_self, lookup_mapInsert_ne, mapEmpty, h]

theorem payload_level (m : BarkMessage) :
    SyncBarkClient.build_json_payload m "level" =
      m.level.map (fun l => JsonValue.str l.as_str) := by
  cases h : m.level <;>
    simp [SyncBarkClient.build_json_payload, lookup_setOpt_ne, setOpt_some, setOpt_none,
      lookup_mapInsert_self, lookup_mapInsert_ne, mapEmpty, h]

theorem payload_volume (m : BarkMessage) :
    SyncBarkClient.build_json_payload m "volume" =
      m.volume.bind (fun v => if v ≤ 10 then some (JsonValue.num v) else none) := by
  cases h : m.volume with
  | none =>
    simp [SyncBarkClient.build_json_payload, lookup_setOpt_ne, setOpt_some, setOpt_none,
      lookup_mapInsert_self, lookup_mapInsert_ne, mapEmpty, h]
  | some v =>
    by_cases hv : v ≤ 10 <;>
      simp [SyncBarkClient.build_json_payload, lookup_setOpt_ne, setOpt_some, setOpt_none,
        lookup_mapInsert_self, lookup_mapInsert_ne, mapEmpty, h, hv]

theorem payload_badge (m : BarkMessage) :
    SyncBarkClient.build_json_payload m "badge" = m.badge.map JsonValue.num := by
  cases h : m.badge <;>
    simp [SyncBarkClient.build_json_payload, lookup_setOpt_ne, setOpt_some, setOpt_none,
      lookup_mapInsert_self, lookup_mapInsert_ne, mapEmpty, h]

theorem payload_call (m : BarkMessage) :
    SyncBarkClient.build_json_payload m "call" =
      m.call.map (fun b => JsonValue.str (boolTo01 b)) := by
  cases h : m.call <;>
    simp [SyncBarkClient.build_json_payload, lookup_setOpt_ne, setOpt_some, setOpt_none,
      lookup_mapInsert_self, lookup_mapInsert_ne, mapEmpty, h]

theorem payload_autoCopy (m : BarkMessage) :
    SyncBarkClient.build_json_payload m "autoCopy" =
      m.auto_copy.map (fun b => JsonValue.str (boolTo01 b)) := by
  cases h : m.auto_copy <;>
    simp [SyncBarkClient.build_json_payload, lookup_setOpt_ne, setOpt_some, setOpt_none,
      lookup_mapInsert_self, lookup_mapInsert_ne, mapEmpty, h]

theorem payload_copy (m : BarkMessage) :
    SyncBarkClient.build_json_payload m "copy" = m.copy.map JsonValue.str := by
  cases h : m.copy <;>
    simp [SyncBarkClient.build_json_payload, lookup_setOpt_ne, setOpt_some, setOpt_none,
      lookup_mapInsert_self, lookup_mapInsert_ne, mapEmpty, h]

theorem payload_sound (m : BarkMessage) :
    SyncBarkClient.build_json_payload m "sound" = m.sound.map JsonValue.str := by
  cases h : m.sound <;>
    simp [SyncBarkClient.build_json_payload, lookup_setOpt_ne, setOpt_some, setOpt_none,
      lookup_mapInsert_self, lookup_mapInsert_ne, mapEmpty, h]

theorem payload_icon (m : BarkMessage) :
    SyncBarkClient.build_json_payload m "icon" = m.icon.map JsonValue.str := by
  cases h : m.icon <;>
    simp [SyncBarkClient.build_json_payload, lookup_setOpt_ne, setOpt_some, setOpt_none,
      lookup_mapInsert_self, lookup_mapInsert_ne, mapEmpty, h]

theorem payload_group (m : BarkMessage) :
    SyncBarkClient.build_json_payload m "group" = m.group.map JsonValue.str := by
  cases h : m.group <;>
    simp [SyncBarkClient.build_json_payload, lookup_setOpt_ne, setOpt_some, setOpt_none,
      lookup_mapInsert_self, lookup_mapInsert_ne, mapEmpty, h]

theorem payload_ciphertext (m : BarkMessage) :
    SyncBarkClient.build_json_payload m "ciphertext" = m.ciphertext.map JsonValue.str := by
  cases h : m.ciphertext <;>
    simp [SyncBarkClient.build_json_payload, lookup_setOpt_ne, setOpt_some, setOpt_none,
      lookup_mapInsert_self, lookup_mapInsert_ne, mapEmpty, h]

theorem payload_isArchive (m : BarkMessage) :
    SyncBarkClient.build_json_payload m "isArchive" =
      m.is_archive.map (fun b => JsonValue.str (boolTo01 b)) := by
  cases h : m.is_archive <;>
    simp [SyncBarkClient.build_json_payload, lookup_setOpt_ne, setOpt_some, setOpt_none,
      lookup_mapInsert_self, lookup_mapInsert_ne, mapEmpty, h]

theorem payload_url (m : BarkMessage) :
    SyncBarkClient.build_json_payload m "url" = m.url.map JsonValue.str := by
  cases h : m.url <;>
    simp [SyncBarkClient.build_json_payload, lookup_setOpt_ne, setOpt_some, setOpt_none,
      lookup_mapInsert_self, lookup_mapInsert_ne, mapEmpty, h]

theorem payload_action (m : BarkMessage) :
    SyncBarkClient.build_json_payload m "action" = m.action.map JsonValue.str := by
  cases h : m.action <;>
    simp [SyncBarkClient.build_json_payload, lookup_setOpt_ne, setOpt_some, setOpt_none,
      lookup_mapInsert_self, lookup_mapInsert_ne, mapEmpty, h]

theorem payload_id (m : BarkMessage) :
    SyncBarkClient.build_json_payload m "id" = m.id.map JsonValue.str := by
  cases h : m.id <;>
    simp [SyncBarkClient.build_json_payload, lookup_setOpt_ne, setOpt_some, setOpt_none,
      lookup_mapInsert_self, lookup_mapInsert_ne, mapEmpty, h]

theorem payload_delete (m : BarkMessage) :
    SyncBarkClient.build_json_payload m "delete" =
      m.delete.map (fun b => JsonValue.str (boolTo01 b)) := by
  cases h : m.delete <;>
    simp [SyncBarkClient.build_json_payload, lookup_setOpt_ne, setOpt_some, setOpt_none,
      lookup_mapInsert_self, lookup_mapInsert_ne, mapEmpty, h]

/-- Sample client without a default device key, for concrete witnesses. -/
def sampleClientNoKey : SyncBarkClient :=
  SyncBarkClient.new "https://api.day.app"

/-- Sample client with a default device key, for concrete witnesses. -/
def sampleClientWithKey : SyncBarkClient :=
  SyncBarkClient.with_device_key "https://api.day.app" "ck"

/-- Sample message carrying both a single `device_key` and a `device_keys`
list, for concrete witnesses. -/
def sampleBatchMessage : BarkMessage :=
  { BarkMessage.default with device_key := some "dk", device_keys := some ["k1", "k2"] }

/-- Sample message carrying only a single `device_key`. -/
def sampleSingleMessage : BarkMessage :=
  { BarkMessage.default with device_key := some "dk" }

/-- Claim C1 counterexample: calling `volume(5)` and then `volume(15)` leaves
`volume = Some(5)`: the built message does not hold the value `15` passed to
the last call, and it also differs from the result of `volume(15)` alone
(which leaves the field unset). -/
theorem builder_volume_last_call_cex :
    ((BarkMessageBuilder.new.volume 5).volume 15).build.volume = some 5 ∧
    ((BarkMessageBuilder.new.volume 5).volume 15).build.volume ≠ some 15 ∧
    (BarkMessageBuilder.new.volume 15).build.volume = none := by
  refine ⟨rfl, by decide, rfl⟩

/-- Claim C1, amended: for every unconditional setter of
`BarkMessageBuilder`, the built message holds the value passed to the last
call of that setter, whatever builder state the call is applied to; the
`volume` setter is a no-op for out-of-range input, so its last call wins only
when the last value is in range `[0,10]`, and an out-of-range call leaves the
previously accumulated volume unchanged. -/
theorem builder_last_call_wins :
    (∀ (b : BarkMessageBuilder) (s : String), (b.body s).build.body = s) ∧
    (∀ (b : BarkMessageBuilder) (s : String), (b.title s).build.title = some s) ∧
    (∀ (b : BarkMessageBuilder) (s : String), (b.subtitle s).build.subtitle = some s) ∧
    (∀ (b : BarkMessageBuilder) (s : String), (b.device_key s).build.device_key = some s) ∧
    (∀ (b : BarkMessageBuilder) (ks : List String),
      (b.device_keys ks).build.device_keys = some ks) ∧
    (∀ (b : BarkMessageBuilder) (l : Level), (b.level l).build.level = some l) ∧
    (∀ (b : BarkMessageBuilder) (n : Nat), (b.badge n).build.badge = some n) ∧
    (∀ (b : BarkMessageBuilder) (x : Bool), (b.call x).build.call = some x) ∧
    (∀ (b : BarkMessageBuilder) (x : Bool), (b.auto_copy x).build.auto_copy = some x) ∧
    (∀ (b : BarkMessageBuilder) (s : String), (b.copy s).build.copy = some s) ∧
    (∀ (b : BarkMessageBuilder) (s : String), (b.sound s).build.sound = some s) ∧
    (∀ (b : BarkMessageBuilder) (s : String), (b.icon s).build.icon = some s) ∧
    (∀ (b : BarkMessageBuilder) (s : String), (b.group s).build.group = some s) ∧
    (∀ (b : BarkMessageBuilder) (s : String), (b.ciphertext s).build.ciphertext = some s) ∧
    (∀ (b : BarkMessageBuilder) (x : Bool), (b.is_archive x).build.is_archive = some x) ∧
    (∀ (b : BarkMessageBuilder) (s : String), (b.url s).build.url = some s) ∧
    (∀ (b : BarkMessageBuilder) (s : String), (b.action s).build.action = some s) ∧
    (∀ (b : BarkMessageBuilder) (s : String), (b.id s).build.id = some s) ∧
    (∀ (b : BarkMessageBuilder) (x : Bool), (b.delete x).build.delete = some x) ∧
    (∀ (b : BarkMessageBuilder) (v : Nat),
      (b.volume v).build.volume = if v ≤ 10 then some v else b.build.volume) := by
  refine ⟨fun b s => rfl, fun b s => rfl, fun b s => rfl, fun b s => rfl, fun b ks => rfl,
    fun b l => rfl, fun b n => rfl, fun b x => rfl, fun b x => rfl, fun b s => rfl,
    fun b s => rfl, fun b s => rfl, fun b s => rfl, fun b s => rfl, fun b x => rfl,
    fun b s => rfl, fun b s => rfl, fun b s => rfl, fun b x => rfl, fun b v => ?_⟩
  by_cases h : v ≤ 10 <;> simp [BarkMessageBuilder.volume, BarkMessageBuilder.build, h]

/-- Claim C4: `volume(v)` sets the field to `Some(v)` exactly when
`v ≤ 10`; for `v > 10` the call is a no-op (the field stays unset on a fresh
builder, and more generally the accumulated state is unchanged).  The setter
is total, so no error can be raised. -/
theorem volume_setter_range :
    (∀ (b : BarkMessageBuilder) (v : Nat), v ≤ 10 → (b.volume v).build.volume = some v) ∧
    (∀ (v : Nat), 10 < v → (BarkMessageBuilder.new.volume v).build.volume = none) ∧
    (∀ (b : BarkMessageBuilder) (v : Nat), 10 < v → (b.volume v).build = b.build) := by
  refine ⟨fun b v h => ?_, fun v h => ?_, fun b v h => ?_⟩
  · simp [BarkMessageBuilder.volume, BarkMessageBuilder.build, h]
  · simp [BarkMessageBuilder.volume, BarkMessageBuilder.build, BarkMessageBuilder.new,
      BarkMessage.default, Nat.not_le.mpr h]
  · simp [BarkMessageBuilder.volume, BarkMessageBuilder.build, Nat.not_le.mpr h]

/-- Claim C4 witness: `volume(5)` yields `Some 5`, `volume(15)` leaves the
field unset. -/
theorem volume_setter_range_witness :
    (BarkMessageBuilder.new.volume 5).build.volume = some 5 ∧
    (BarkMessageBuilder.new.volume 15).build.volume = none :=
  ⟨volume_setter_range.1 BarkMessageBuilder.new 5 (by decide),
   volume_setter_range.2.1 15 (by decide)⟩

/-- Claim C7: construction normalizes `base_url` by stripping the trailing
slash (`trim_end_matches('/')`), and stores the default device key exactly
when constructed through `with_device_key`; `new` applies the same
normalization and stores no key. -/
theorem client_construction_normalizes :
    (SyncBarkClient.with_device_key "https://api.day.app/" "k").base_url =
      "https://api.day.app" ∧
    (SyncBarkClient.with_device_key "https://api.day.app/" "k").default_device_key =
      some "k" ∧
    (∀ u k, (SyncBarkClient.with_device_key u k).base_url = (SyncBarkClient.new u).base_url) ∧
    (∀ u, (SyncBarkClient.new u).base_url = trimEndSlashes u) ∧
    (∀ u, (SyncBarkClient.new u).default_device_key = none) ∧
    (SyncBarkClient.new "https://api.day.app/").base_url = "https://api.day.app" := by
  exact ⟨rfl, rfl, fun u k => rfl, fun u => rfl, fun u => rfl, rfl⟩

/-- Helper: `get_device_key` fails only with `MissingDeviceKey`. -/
theorem get_device_key_error (c : SyncBarkClient) (m : BarkMessage) (e : BarkError)
    (h : c.get_device_key m = Except.error e) : e = BarkError.missingDeviceKey := by
  unfold SyncBarkClient.get_device_key at h
  cases hd : m.device_key with
  | some k => rw [hd] at h; simp at h
  | none =>
    rw [hd] at h
    cases hc : c.default_device_key with
    | some k => rw [hc] at h; simp at h
    | none => rw [hc] at h; simp at h; exact h.symm

/-- Helper: the pre-network part of `send` fails only with
`MissingDeviceKey`. -/
theorem send_error_eq_missingDeviceKey (c : SyncBarkClient) (m : BarkMessage) (e : BarkError)
    (h : c.send m = Except.error e) : e = BarkError.missingDeviceKey := by
  unfold SyncBarkClient.send at h
  by_cases hk : m.device_keys.isSome
  · rw [if_pos hk] at h
    simp [SyncBarkClient.send_batch] at h
  · rw [if_neg hk] at h
    unfold SyncBarkClient.send_single at h
    cases hg : c.get_device_key m with
    | error e2 =>
      rw [hg] at h
      simp at h
      exact h ▸ get_device_key_error c m e2 hg
    | ok dk => rw [hg] at h; simp at h

/-- Helper: on any request `send` produces, every payload key other than
`device_key` holds exactly what `build_json_payload` put there. -/
theorem send_ok_payload_lookup (c : SyncBarkClient) (m : BarkMessage) (req : Request)
    (h : c.send m = Except.ok req) (q : String) (hq : q ≠ "device_key") :
    req.payload q = SyncBarkClient.build_json_payload m q := by
  unfold SyncBarkClient.send at h
  by_cases hk : m.device_keys.isSome
  · rw [if_pos hk] at h
    unfold SyncBarkClient.send_batch at h
    simp at h
    rw [← h]
  · rw [if_neg hk] at h
    unfold SyncBarkClient.send_single at h
    cases hg : c.get_device_key m with
    | error e2 => rw [hg] at h; simp at h
    | ok dk =>
      rw [hg] at h
      simp at h
      rw [← h]
      exact lookup_mapInsert_ne hq _ _

/-- Claim C2: a message with `device_keys` set routes through the batch path
(whatever `device_key` holds), and the payload on that path has no
`device_key` entry while holding the `device_keys` array. -/
theorem batch_path_of_device_keys (c : SyncBarkClient) (m : BarkMessage) (ks : List String)
    (h : m.device_keys = some ks) :
    c.send m = c.send_batch m ∧
    c.send m = Except.ok ⟨c.base_url ++ "/push", SyncBarkClient.build_json_payload m⟩ ∧
    SyncBarkClient.build_json_payload m "device_key" = none ∧
    SyncBarkClient.build_json_payload m "device_keys" = some (JsonValue.arrStr ks) := by
  have hsend : c.send m = c.send_batch m := by
    simp [SyncBarkClient.send, h]
  refine ⟨hsend, ?_, payload_device_key m, ?_⟩
  · rw [hsend]; rfl
  · rw [payload_device_keys, h]; rfl

/-- Claim C2 witness: a concrete message with both `device_key` and
`device_keys` set goes through the batch path. -/
theorem batch_path_witness :
    sampleClientNoKey.send sampleBatchMessage = sampleClientNoKey.send_batch sampleBatchMessage ∧
    sampleClientNoKey.send sampleBatchMessage = Except.ok
      ⟨sampleClientNoKey.base_url ++ "/push",
        SyncBarkClient.build_json_payload sampleBatchMessage⟩ ∧
    SyncBarkClient.build_json_payload sampleBatchMessage "device_key" = none ∧
    SyncBarkClient.build_json_payload sampleBatchMessage "device_keys" =
      some (JsonValue.arrStr ["k1", "k2"]) :=
  batch_path_of_device_keys sampleClientNoKey sampleBatchMessage ["k1", "k2"] rfl

/-- Claim C3: with no `device_keys`, no `device_key` and no client default,
`send` fails with `MissingDeviceKey` whatever the network oracle would
answer (the oracle is never consulted, so no HTTP call is attempted);
conversely on the single path the effective device key is the message's key
when present, else the client's default. -/
theorem missing_device_key_fails_fast :
    (∀ (c : SyncBarkClient) (m : BarkMessage) (http : Request → HttpOutcome),
      m.device_keys = none → m.device_key = none → c.default_device_key = none →
        c.send m = Except.error BarkError.missingDeviceKey ∧
        fullSend c m http = Except.error BarkError.missingDeviceKey) ∧
    (∀ (c : SyncBarkClient) (m : BarkMessage) (k : String),
      m.device_keys = none → m.device_key = some k →
        c.send m = Except.ok ⟨c.base_url ++ "/push",
          mapInsert (SyncBarkClient.build_json_payload m) "device_key" (JsonValue.str k)⟩) ∧
    (∀ (c : SyncBarkClient) (m : BarkMessage) (k : String),
      m.device_keys = none → m.device_key = none → c.default_device_key = some k →
        c.send m = Except.ok ⟨c.base_url ++ "/push",
          mapInsert (SyncBarkClient.build_json_payload m) "device_key" (JsonValue.str k)⟩) := by
  refine ⟨fun c m http h1 h2 h3 => ?_, fun c m k h1 h2 => ?_, fun c m k h1 h2 h3 => ?_⟩
  · have hs : c.send m = Except.error BarkError.missingDeviceKey := by
      simp [SyncBarkClient.send, SyncBarkClient.send_single, SyncBarkClient.get_device_key,
        h1, h2, h3]
    exact ⟨hs, by simp [fullSend, hs]⟩
  · simp [SyncBarkClient.send, SyncBarkClient.send_single, SyncBarkClient.get_device_key,
      h1, h2]
  · simp [SyncBarkClient.send, SyncBarkClient.send_single, SyncBarkClient.get_device_key,
      h1, h2, h3]

/-- Claim C3 witness: concrete instances of the fail-fast error and of both
effective-key resolutions. -/
theorem missing_device_key_witness :
    (sampleClientNoKey.send BarkMessage.default = Except.error BarkError.missingDeviceKey) ∧
    (sampleClientNoKey.send sampleSingleMessage = Except.ok
      ⟨sampleClientNoKey.base_url ++ "/push",
        mapInsert (SyncBarkClient.build_json_payload sampleSingleMessage)
          "device_key" (JsonValue.str "dk")⟩) ∧
    (sampleClientWithKey.send BarkMessage.default = Except.ok
      ⟨sampleClientWithKey.base_url ++ "/push",
        mapInsert (SyncBarkClient.build_json_payload BarkMessage.default)
          "device_key" (JsonValue.str "ck")⟩) :=
  ⟨(missing_device_key_fails_fast.1 sampleClientNoKey BarkMessage.default
      (fun _ => HttpOutcome.transportError "") rfl rfl rfl).1,
   missing_device_key_fails_fast.2.1 sampleClientNoKey sampleSingleMessage "dk" rfl rfl,
   missing_device_key_fails_fast.2.2 sampleClientWithKey BarkMessage.default "ck" rfl rfl rfl⟩

/-- Claim C8: no run of `send` — whatever the message, the client and the
network outcome — ever returns `BarkError::InvalidUrl`; construction and
building are total and return no error at all, so the variant is unreachable
in every code path. -/
theorem invalid_url_unreachable :
    ∀ (c : SyncBarkClient) (m : BarkMessage) (http : Request → HttpOutcome),
      fullSend c m http ≠ Except.error BarkError.invalidUrl ∧
      c.send m ≠ Except.error BarkError.invalidUrl := by
  intro c m http
  constructor
  · intro hcontra
    unfold fullSend at hcontra
    cases hs : c.send m with
    | error e =>
      rw [hs] at hcontra
      simp at hcontra
      have := send_error_eq_missingDeviceKey c m e hs
      rw [hcontra] at this
      simp at this
    | ok req =>
      rw [hs] at hcontra
      cases ho : http req <;> simp [ho] at hcontra
  · intro hcontra
    have := send_error_eq_missingDeviceKey c m BarkError.invalidUrl hcontra
    simp at this

/-- Sample message with all four boolean fields set, for concrete witnesses. -/
def sampleBoolMessage : BarkMessage :=
  { BarkMessage.default with
      call := some true
      auto_copy := some false
      is_archive := some true
      delete := some false }

/-- Helper: a `volume` entry in the payload is always at most 10. -/
theorem payload_volume_le (m : BarkMessage) (v : Nat)
    (h : SyncBarkClient.build_json_payload m "volume" = some (JsonValue.num v)) : v ≤ 10 := by
  rw [payload_volume] at h
  cases hv : m.volume with
  | none => rw [hv] at h; simp at h
  | some v0 =>
    rw [hv] at h
    simp at h
    exact h.2 ▸ h.1

/-- Claim C5: the boolean fields `call`, `auto_copy`, `is_archive` and
`delete`, when set, appear in the payload under the wire keys `call`,
`autoCopy`, `isArchive` and `delete` as the JSON strings "1" (true) / "0"
(false), and never as JSON booleans. -/
theorem booleans_serialize_as_strings :
    boolTo01 true = "1" ∧ boolTo01 false = "0" ∧
    (∀ (m : BarkMessage) (b : Bool), m.call = some b →
      SyncBarkClient.build_json_payload m "call" = some (JsonValue.str (boolTo01 b))) ∧
    (∀ (m : BarkMessage) (b : Bool), m.auto_copy = some b →
      SyncBarkClient.build_json_payload m "autoCopy" = some (JsonValue.str (boolTo01 b))) ∧
    (∀ (m : BarkMessage) (b : Bool), m.is_archive = some b →
      SyncBarkClient.build_json_payload m "isArchive" = some (JsonValue.str (boolTo01 b))) ∧
    (∀ (m : BarkMessage) (b : Bool), m.delete = some b →
      SyncBarkClient.build_json_payload m "delete" = some (JsonValue.str (boolTo01 b))) ∧
    (∀ (m : BarkMessage) (bv : Bool),
      SyncBarkClient.build_json_payload m "call" ≠ some (JsonValue.bool bv) ∧
      SyncBarkClient.build_json_payload m "autoCopy" ≠ some (JsonValue.bool bv) ∧
      SyncBarkClient.build_json_payload m "isArchive" ≠ some (JsonValue.bool bv) ∧
      SyncBarkClient.build_json_payload m "delete" ≠ some (JsonValue.bool bv)) := by
  refine ⟨rfl, rfl, fun m b h => ?_, fun m b h => ?_, fun m b h => ?_, fun m b h => ?_,
    fun m bv => ⟨?_, ?_, ?_, ?_⟩⟩
  · rw [payload_call, h]; rfl
  · rw [payload_autoCopy, h]; rfl
  · rw [payload_isArchive, h]; rfl
  · rw [payload_delete, h]; rfl
  · rw [payload_call]; cases m.call <;> simp
  · rw [payload_autoCopy]; cases m.auto_copy <;> simp
  · rw [payload_isArchive]; cases m.is_archive <;> simp
  · rw [payload_delete]; cases m.delete <;> simp

/-- Claim C5 witness: concrete boolean fields serialize to the strings
"1" and "0". -/
theorem booleans_serialize_witness :
    SyncBarkClient.build_json_payload sampleBoolMessage "call" =
      some (JsonValue.str "1") ∧
    SyncBarkClient.build_json_payload sampleBoolMessage "autoCopy" =
      some (JsonValue.str "0") ∧
    SyncBarkClient.build_json_payload sampleBoolMessage "isArchive" =
      some (JsonValue.str "1") ∧
    SyncBarkClient.build_json_payload sampleBoolMessage "delete" =
      some (JsonValue.str "0") :=
  ⟨booleans_serialize_as_strings.2.2.1 sampleBoolMessage true rfl,
   booleans_serialize_as_strings.2.2.2.1 sampleBoolMessage false rfl,
   booleans_serialize_as_strings.2.2.2.2.1 sampleBoolMessage true rfl,
   booleans_serialize_as_strings.2.2.2.2.2.1 sampleBoolMessage false rfl⟩

/-- Claim C9: even for a message built directly through the public fields
(bypassing the builder), the payload holds a `volume` entry only when the
value is at most 10, so every payload `send` ever produces satisfies the
invariant that its volume, when present, lies in [0,10]. -/
theorem volume_payload_invariant :
    (∀ (m : BarkMessage) (v : Nat),
      SyncBarkClient.build_json_payload m "volume" = some (JsonValue.num v) → v ≤ 10) ∧
    (∀ (m : BarkMessage) (v : Nat), m.volume = some v → 10 < v →
      SyncBarkClient.build_json_payload m "volume" = none) ∧
    (∀ (m : BarkMessage) (v : Nat), m.volume = some v → v ≤ 10 →
      SyncBarkClient.build_json_payload m "volume" = some (JsonValue.num v)) ∧
    (∀ (c : SyncBarkClient) (m : BarkMessage) (req : Request) (v : Nat),
      c.send m = Except.ok req →
      req.payload "volume" = some (JsonValue.num v) → v ≤ 10) := by
  refine ⟨payload_volume_le, fun m v h h10 => ?_, fun m v h h10 => ?_,
    fun c m req v hsend hv => ?_⟩
  · rw [payload_volume, h]
    simp [Nat.not_le.mpr h10]
  · rw [payload_volume, h]
    simp [h10]
  · rw [send_ok_payload_lookup c m req hsend "volume" (by decide)] at hv
    exact payload_volume_le m v hv

/-- Claim C9 witness: a direct-field message with `volume = 15` loses the
entry, one with `volume = 7` keeps it. -/
theorem volume_payload_witness :
    SyncBarkClient.build_json_payload
      { BarkMessage.default with volume := some 15 } "volume" = none ∧
    SyncBarkClient.build_json_payload
      { BarkMessage.default with volume := some 7 } "volume" = some (JsonValue.num 7) :=
  ⟨volume_payload_invariant.2.1 { BarkMessage.default with volume := some 15 } 15
      rfl (by decide),
   volume_payload_invariant.2.2.1 { BarkMessage.default with volume := some 7 } 7
      rfl (by decide)⟩

/-- Claim C6: the payload always holds `body` as a string (even when empty);
each optional wire key is present exactly when the corresponding field is
set (for `volume`, also in range); `level` maps onto exactly the four
strings "critical", "active", "timeSensitive", "passive"; and on requests
`send` produces, `device_key` appears only on the single-target path while
`device_keys` appears only on the batch path. -/
theorem payload_wire_shape :
    (∀ m : BarkMessage,
      SyncBarkClient.build_json_payload m "body" = some (JsonValue.str m.body)) ∧
    (∀ m : BarkMessage,
      SyncBarkClient.build_json_payload m "title" = m.title.map JsonValue.str ∧
      SyncBarkClient.build_json_payload m "subtitle" = m.subtitle.map JsonValue.str ∧
      SyncBarkClient.build_json_payload m "device_keys" = m.device_keys.map JsonValue.arrStr ∧
      SyncBarkClient.build_json_payload m "level" =
        m.level.map (fun l => JsonValue.str l.as_str) ∧
      SyncBarkClient.build_json_payload m "volume" =
        m.volume.bind (fun v => if v ≤ 10 then some (JsonValue.num v) else none) ∧
      SyncBarkClient.build_json_payload m "badge" = m.badge.map JsonValue.num ∧
      SyncBarkClient.build_json_payload m "call" =
        m.call.map (fun b => JsonValue.str (boolTo01 b)) ∧
      SyncBarkClient.build_json_payload m "autoCopy" =
        m.auto_copy.map (fun b => JsonValue.str (boolTo01 b)) ∧
      SyncBarkClient.build_json_payload m "copy" = m.copy.map JsonValue.str ∧
      SyncBarkClient.build_json_payload m "sound" = m.sound.map JsonValue.str ∧
      SyncBarkClient.build_json_payload m "icon" = m.icon.map JsonValue.str ∧
      SyncBarkClient.build_json_payload m "group" = m.group.map JsonValue.str ∧
      SyncBarkClient.build_json_payload m "ciphertext" = m.ciphertext.map JsonValue.str ∧
      SyncBarkClient.build_json_payload m "isArchive" =
        m.is_archive.map (fun b => JsonValue.str (boolTo01 b)) ∧
      SyncBarkClient.build_json_payload m "url" = m.url.map JsonValue.str ∧
      SyncBarkClient.build_json_payload m "action" = m.action.map JsonValue.str ∧
      SyncBarkClient.build_json_payload m "id" = m.id.map JsonValue.str ∧
      SyncBarkClient.build_json_payload m "delete" =
        m.delete.map (fun b => JsonValue.str (boolTo01 b))) ∧
    (∀ (m : BarkMessage) (s : JsonValue),
      SyncBarkClient.build_json_payload m "level" = some s →
        s = JsonValue.str "critical" ∨ s = JsonValue.str "active" ∨
        s = JsonValue.str "timeSensitive" ∨ s = JsonValue.str "passive") ∧
    (∀ (c : SyncBarkClient) (m : BarkMessage) (req : Request),
      m.device_keys = none → c.send m = Except.ok req →
        req.payload "device_keys" = none ∧
        ∃ k, req.payload "device_key" = some (JsonValue.str k)) ∧
    (∀ (c : SyncBarkClient) (m : BarkMessage) (ks : List String) (req : Request),
      m.device_keys = some ks → c.send m = Except.ok req →
        req.payload "device_keys" = some (JsonValue.arrStr ks) ∧
        req.payload "device_key" = none) := by
  refine ⟨payload_body,
    fun m => ⟨payload_title m, payload_subtitle m, payload_device_keys m, payload_level m,
      payload_volume m, payload_badge m, payload_call m, payload_autoCopy m, payload_copy m,
      payload_sound m, payload_icon m, payload_group m, payload_ciphertext m,
      payload_isArchive m, payload_url m, payload_action m, payload_id m, payload_delete m⟩,
    ?_, ?_, ?_⟩
  · intro m s h
    rw [payload_level] at h
    cases hl : m.level with
    | none => rw [hl] at h; simp at h
    | some l =>
      rw [hl] at h
      simp at h
      subst h
      cases l <;> decide
  · intro c m req hdk hsend
    have hkeys := send_ok_payload_lookup c m req hsend "device_keys" (by decide)
    refine ⟨by rw [hkeys, payload_device_keys, hdk]; rfl, ?_⟩
    unfold SyncBarkClient.send at hsend
    rw [if_neg (by simp [hdk])] at hsend
    unfold SyncBarkClient.send_single at hsend
    cases hg : c.get_device_key m with
    | error e => rw [hg] at hsend; simp at hsend
    | ok dk =>
      rw [hg] at hsend
      simp at hsend
      refine ⟨dk, ?_⟩
      rw [← hsend]
      show mapInsert (SyncBarkClient.build_json_payload m) "device_key"
        (JsonValue.str dk) "device_key" = some (JsonValue.str dk)
      exact lookup_mapInsert_self _ _ _
  · intro c m ks req hdk hsend
    have hb : c.send m = c.send_batch m := by simp [SyncBarkClient.send, hdk]
    rw [hb] at hsend
    unfold SyncBarkClient.send_batch at hsend
    simp at hsend
    rw [← hsend]
    constructor
    · show SyncBarkClient.build_json_payload m "device_keys" = some (JsonValue.arrStr ks)
      rw [payload_device_keys, hdk]; rfl
    · show SyncBarkClient.build_json_payload m "device_key" = none
      exact payload_device_key m

/-- Claim C6 witness: concrete instances of the body, level and
`device_keys` entries. -/
theorem payload_wire_shape_witness :
    SyncBarkClient.build_json_payload BarkMessage.default "body" =
      some (JsonValue.str "") ∧
    (SyncBarkClient.build_json_payload
      { BarkMessage.default with level := some Level.timeSensitive } "level" =
        some (JsonValue.str "timeSensitive")) ∧
    (SyncBarkClient.build_json_payload sampleBatchMessage "device_keys" =
      some (JsonValue.arrStr ["k1", "k2"])) :=
  ⟨payload_wire_shape.1 BarkMessage.default,
   (payload_wire_shape.2.1 { BarkMessage.default with level := some Level.timeSensitive }).2.2.2.1,
   (payload_wire_shape.2.1 sampleBatchMessage).2.2.1⟩

/-- Helper: every delegating setter of the attached builder keeps the
client. -/
theorem applyOpSync_client (sb : SyncBarkMessageBuilder) (op : SetterOp) :
    (applyOpSync sb op).client = sb.client := by
  cases op <;> rfl

/-- Helper: every delegating setter of the attached builder acts on the
inner `BarkMessageBuilder` exactly as the standalone setter. -/
theorem applyOpSync_builder (sb : SyncBarkMessageBuilder) (op : SetterOp) :
    (applyOpSync sb op).builder = applyOp sb.builder op := by
  cases op <;> rfl

/-- Helper: a sequence of setter calls on the attached builder keeps the
client and drives the inner builder exactly as the standalone builder. -/
theorem applyOpsSync_spec (ops : List SetterOp) :
    ∀ sb : SyncBarkMessageBuilder,
      (applyOpsSync sb ops).client = sb.client ∧
      (applyOpsSync sb ops).builder = applyOps sb.builder ops := by
  induction ops with
  | nil => intro sb; exact ⟨rfl, rfl⟩
  | cons op ops ih =>
    intro sb
    have h := ih (applyOpSync sb op)
    refine ⟨?_, ?_⟩
    · calc (applyOpsSync sb (op :: ops)).client
          = (applyOpsSync (applyOpSync sb op) ops).client := rfl
        _ = (applyOpSync sb op).client := h.1
        _ = sb.client := applyOpSync_client sb op
    · calc (applyOpsSync sb (op :: ops)).builder
          = (applyOpsSync (applyOpSync sb op) ops).builder := rfl
        _ = applyOps (applyOpSync sb op).builder ops := h.2
        _ = applyOps (applyOp sb.builder op) ops := by rw [applyOpSync_builder]
        _ = applyOps sb.builder (op :: ops) := rfl

/-- Claim C10: for every client and every sequence of setter calls, sending
through the client-attached builder (`client.message()...send()`) produces
the same result as building the message with `BarkMessageBuilder` via the
same sequence and passing it to `client.send`, both at the request level and
end to end for every network outcome; `build()` also yields the same
message. -/
theorem attached_builder_send_equiv :
    ∀ (c : SyncBarkClient) (ops : List SetterOp) (http : Request → HttpOutcome),
      (applyOpsSync c.message ops).sendVia http =
        fullSend c ((applyOps BarkMessageBuilder.new ops).build) http ∧
      (applyOpsSync c.message ops).send =
        c.send ((applyOps BarkMessageBuilder.new ops).build) ∧
      (applyOpsSync c.message ops).build = (applyOps BarkMessageBuilder.new ops).build := by
  intro c ops http
  have h := applyOpsSync_spec ops c.message
  have hc : (applyOpsSync c.message ops).client = c := h.1
  have hb : (applyOpsSync c.message ops).builder = applyOps BarkMessageBuilder.new ops := h.2
  exact ⟨by rw [SyncBarkMessageBuilder.sendVia, hc, hb],
    by rw [SyncBarkMessageBuilder.send, hc, hb],
    by rw [SyncBarkMessageBuilder.build, hb]⟩
